import Mathlib

/-!
Shallow embedding of the API-token authentication and lifecycle subsystem
of the Django storefront (accounts / subscriptions / api apps).

Time is modelled as `Nat` seconds since the epoch.  JWT signing is modelled
symbolically: a signed credential is the pair of the signing secret and the
claim payload, and decoding checks the secret and the embedded expiry, which
is the standard symbolic model of an HMAC-signed token.
-/

/-- JWT claim payload.  Optional fields model absent claims of the Python
dicts built in `APIToken.generate_jwt_token` (accounts/models.py) and
`UserAPIToken.create_from_package` (subscriptions/models.py). -/
structure Payload where
  user_id : Option Nat
  api_key_id : Option Nat
  exp : Option Nat
  jti : Option Nat
  iat : Nat
  rand : Nat
  package_id : Option Nat
deriving DecidableEq

/-- A bearer credential string: either a well-formed JWT signed with some
secret, or an arbitrary non-JWT string. -/
inductive Credential where
  | signed (secret : String) (payload : Payload)
  | raw (s : String)
deriving DecidableEq

/-- `jwt.decode(token, secret, algorithms=[HS256])` as used in
`APIToken.validate_token`: verifies the signature (here: secret equality)
and the `exp` claim when present (PyJWT fails once `exp <= now`). -/
def pyjwtDecode (secret : String) (now : Nat) : Credential → Option Payload
  | Credential.signed s p =>
    if s = secret then
      match p.exp with
      | none => some p
      | some e => if now < e then some p else none
    else none
  | Credential.raw _ => none

/-- `rest_framework_simplejwt.tokens.UntypedToken(token)`:
the backend decode verifies the signature and the `exp` claim only when it
is present, and `UntypedToken.verify` itself is a no-op (`pass`), so
neither an `exp` claim nor a `jti` claim is required — the check coincides
with the plain PyJWT decode. -/
def untypedDecode (secret : String) (now : Nat) : Credential → Option Payload
  | Credential.signed s p =>
    if s = secret then
      match p.exp with
      | none => some p
      | some e => if now < e then some p else none
    else none
  | Credential.raw _ => none

/-- Lifecycle state of a `UserAPIToken` (subscriptions/models.py
`STATUS_CHOICES`). -/
inductive TokenStatus where
  | active
  | expired
  | cancelled
deriving DecidableEq

/-- Duration choices of `APITokenPackage`. -/
inductive PackageDuration where
  | week
  | month
  | year
deriving DecidableEq

/-- A row of `accounts.User` as far as authentication needs it. -/
structure UserRec where
  id : Nat
  is_active : Bool
deriving DecidableEq

/-- A row of `accounts.APIToken` (legacy flag-based token). -/
structure APIToken where
  id : Nat
  user_id : Nat
  name : String
  token : Credential
  token_length : Nat
  is_active : Bool
  expires_at : Option Nat
  created_at : Nat
  last_used : Option Nat
  can_read_products : Bool
  can_manage_cart : Bool
  can_place_orders : Bool
  can_manage_wishlist : Bool
deriving DecidableEq

/-- A row of `subscriptions.APITokenPackage`. -/
structure APITokenPackage where
  id : Nat
  name : String
  duration : PackageDuration
  api_calls_per_month : Nat
  is_active : Bool
deriving DecidableEq

/-- A row of `subscriptions.UserAPIToken` (package-bound token). -/
structure UserAPIToken where
  id : Nat
  user_id : Nat
  token_key : Credential
  package_id : Nat
  status : TokenStatus
  purchased_at : Nat
  expires_at : Nat
  api_calls_used : Nat
  last_used_at : Option Nat
  order_item_id : Option Nat
deriving DecidableEq

/-- A row of `orders.OrderItem` as far as the token-creation signal reads
it: the snapshotted product SKU and the quantity. -/
structure OrderItem where
  id : Nat
  product_sku : Option String
  quantity : Nat
deriving DecidableEq

/-- A row of `orders.Order` restricted to what the signal handler reads. -/
structure Order where
  id : Nat
  user_id : Nat
  payment_status : String
  items : List OrderItem
deriving DecidableEq

/-- The persistent state the subsystem reads and writes, plus the ambient
configuration (`settings.SECRET_KEY`, `timezone.now()`) and a freshness
counter modelling database id allocation and random token material. -/
structure Store where
  users : List UserRec
  apiTokens : List APIToken
  userApiTokens : List UserAPIToken
  packages : List APITokenPackage
  secret : String
  now : Nat
  fresh : Nat
deriving DecidableEq

/-- `APIToken.is_expired` (accounts/models.py): no `expires_at` means never
expires; otherwise expired once `now > expires_at`. -/
def APIToken.is_expired (now : Nat) (t : APIToken) : Bool :=
  match t.expires_at with
  | none => false
  | some e => decide (now > e)

/-- `APIToken.is_valid` (accounts/models.py). -/
def APIToken.is_valid (now : Nat) (t : APIToken) : Bool :=
  t.is_active && !(t.is_expired now)

/-- `APIToken.generate_jwt_token` (accounts/models.py): builds the claim
payload (`api_key_id`, `user_id`, `iat`, random material, and `exp` exactly
when `expires_at` is set) and signs it with `settings.SECRET_KEY`. -/
def APIToken.generate_jwt_token (secret : String) (now rand : Nat) (t : APIToken) : Credential :=
  Credential.signed secret
    { user_id := some t.user_id
      api_key_id := some t.id
      exp := t.expires_at
      jti := none
      iat := now
      rand := rand
      package_id := none }

/-- `UserAPIToken.is_valid` (subscriptions/models.py): active status and
`now <= expires_at`. -/
def UserAPIToken.is_valid (now : Nat) (t : UserAPIToken) : Bool :=
  t.status = TokenStatus.active && decide (now ≤ t.expires_at)

/-- `UserAPIToken.increment_usage` applied in place inside the store:
bumps `api_calls_used` and stamps `last_used_at` on the row with this id. -/
def incrementUsage (st : Store) (tid : Nat) : Store :=
  { st with userApiTokens :=
      st.userApiTokens.map (fun t =>
        if t.id = tid then
          { t with api_calls_used := t.api_calls_used + 1, last_used_at := some st.now }
        else t) }

/-- The `last_used` update of `APIToken.validate_token` applied in place inside
the store. -/
def touchLastUsed (st : Store) (tid : Nat) : Store :=
  { st with apiTokens :=
      st.apiTokens.map (fun t =>
        if t.id = tid then { t with last_used := some st.now } else t) }

/-- `APIToken.validate_token` (accounts/models.py): decode with PyJWT, read
`api_key_id` (Python falsiness drops both a missing claim and the value 0),
fetch the active row with that id, reject if expired, then stamp
`last_used` and return the row. -/
def validate_token (st : Store) (c : Credential) : Option (APIToken × Store) :=
  match pyjwtDecode st.secret st.now c with
  | none => none
  | some p =>
    match p.api_key_id with
    | none => none
    | some kid =>
      if kid = 0 then none
      else
        match st.apiTokens.find? (fun t => t.id = kid && t.is_active) with
        | none => none
        | some t =>
          if t.is_expired st.now then none
          else some ({ t with last_used := some st.now }, touchLastUsed st t.id)

/-- The principal attached to the request by a successful resolution
(`request.auth` in Django terms). -/
inductive AuthPrincipal where
  | subscription (t : UserAPIToken)
  | legacy (t : APIToken)
  | jwt (p : Payload)
deriving DecidableEq

/-- The distinct failure raise-sites of
`APITokenAuthentication.authenticate` plus the simplejwt `get_user`
failures. -/
inductive AuthError where
  | subscriptionExpired
  | userNotFound
  | userInactive
  | invalidToken
  | invalidFormat
deriving DecidableEq

/-- Outcome of the resolver: no credential presented (`None`), success with
a principal, or an `AuthenticationFailed`. -/
inductive AuthOutcome where
  | noCredential
  | success (userId : Nat) (principal : AuthPrincipal)
  | failed (e : AuthError)
deriving DecidableEq

/-- The legacy-token fallback shared by both `except` arms of
`APITokenAuthentication.authenticate` (api/authentication.py lines 55-61
and 67-73). -/
def legacyFallback (st : Store) (c : Credential) (onMiss : AuthOutcome) : AuthOutcome × Store :=
  match validate_token st c with
  | some (t, st1) => (AuthOutcome.success t.user_id (AuthPrincipal.legacy t), st1)
  | none => (onMiss, st)

/-- Core of `APITokenAuthentication.authenticate` (api/authentication.py)
once the bearer token string has been extracted: try `UntypedToken` +
`get_user`, then the package-bound lookup, then the legacy fallback, and
finally either default-JWT success or the collapsed invalid-token
failure. -/
def resolve (st : Store) (c : Credential) : AuthOutcome × Store :=
  match untypedDecode st.secret st.now c with
  | some p =>
    match p.user_id with
    | none =>
      -- get_user raises InvalidToken (missing claim), caught at line 66
      legacyFallback st c (AuthOutcome.failed AuthError.invalidToken)
    | some uid =>
      match st.users.find? (fun u => u.id = uid) with
      | none => (AuthOutcome.failed AuthError.userNotFound, st)
      | some u =>
        if !u.is_active then (AuthOutcome.failed AuthError.userInactive, st)
        else
          match st.userApiTokens.find? (fun t =>
              t.token_key = c && t.user_id = uid && t.status = TokenStatus.active) with
          | some ut =>
            if ut.is_valid st.now then
              (AuthOutcome.success uid (AuthPrincipal.subscription ut), incrementUsage st ut.id)
            else
              (AuthOutcome.failed AuthError.subscriptionExpired, st)
          | none =>
            -- legacy attempt, then default JWT authentication (line 64)
            legacyFallback st c (AuthOutcome.success uid (AuthPrincipal.jwt p))
  | none =>
    legacyFallback st c (AuthOutcome.failed AuthError.invalidToken)

/-- Worker for `pySplit`: walk the characters, accumulating the current
word (reversed) and splitting at whitespace runs. -/
def pySplitAux (cur : List Char) : List Char → List String
  | [] => if cur = [] then [] else [String.mk cur.reverse]
  | c :: rest =>
    if c.isWhitespace then
      if cur = [] then pySplitAux [] rest
      else String.mk cur.reverse :: pySplitAux [] rest
    else pySplitAux (c :: cur) rest

/-- Python `str.split()` with no argument: split on whitespace runs and
drop empty pieces. -/
def pySplit (s : String) : List String :=
  pySplitAux [] s.data

/-- Python `str.lower()`. -/
def strLower (s : String) : String :=
  String.mk (s.data.map Char.toLower)

/-- Shape-level outcome of header handling: no credential, an
`AuthenticationFailed`, or a token string handed to credential
resolution. -/
inductive HeaderOutcome where
  | anonymous
  | failedMsg (msg : String)
  | token (t : String)
deriving DecidableEq

/-- Header handling of `APITokenAuthentication.authenticate`
(api/authentication.py lines 17-29): a missing or empty header and any
shape other than exactly two parts with first part `bearer`
(case-insensitive) all return `None`. -/
def apiTokenHeaderOutcome : Option String → HeaderOutcome
  | none => HeaderOutcome.anonymous
  | some h =>
    if h = "" then HeaderOutcome.anonymous
    else
      if (pySplit h).length ≠ 2 ∨ strLower ((pySplit h).headD "") ≠ "bearer" then
        HeaderOutcome.anonymous
      else HeaderOutcome.token ((pySplit h).getD 1 "")

/-- Header handling of `APIKeyAuthentication.authenticate`
(accounts/authentication.py lines 20-42): wrong scheme returns `None`;
scheme `bearer` with a missing token part or extra parts raises
`AuthenticationFailed`. -/
def apiKeyHeaderOutcome : Option String → HeaderOutcome
  | none => HeaderOutcome.anonymous
  | some h =>
    if h = "" then HeaderOutcome.anonymous
    else
      if (pySplit h).length = 0 ∨ strLower ((pySplit h).headD "") ≠ "bearer" then
        HeaderOutcome.anonymous
      else if (pySplit h).length = 1 then
        HeaderOutcome.failedMsg "Invalid token header. No credentials provided."
      else if (pySplit h).length > 2 then
        HeaderOutcome.failedMsg "Invalid token header. Token string should not contain spaces."
      else HeaderOutcome.token ((pySplit h).getD 1 "")

/-- Result of the `create_api_token` view (accounts/views.py): either the
created record or one of its distinct JSON error responses. -/
inductive CreateResult where
  | ok (t : APIToken)
  | errNameRequired
  | errDuplicateName
  | errLimit
  | errExpiryRange
deriving DecidableEq

/-- `create_api_token` (accounts/views.py lines 67-116): reject an empty
name, a name already used by this user, or 10 active tokens already;
validate `expires_in_days` (Python falsiness skips the value 0); then
insert a new row with default flags, whose JWT is minted on save.  The
serializer path (`CreateAPITokenSerializer.validate_name` +
`APITokenListCreateView.perform_create`) applies the same checks. -/
def create_api_token (st : Store) (userId : Nat) (name : String)
    (expiresInDays : Option Nat) : CreateResult × Store :=
  if name = "" then (CreateResult.errNameRequired, st)
  else if st.apiTokens.any (fun t => t.user_id = userId && t.name = name) then
    (CreateResult.errDuplicateName, st)
  else if 10 ≤ (st.apiTokens.filter (fun t => t.user_id = userId && t.is_active)).length then
    (CreateResult.errLimit, st)
  else
    match expiresInDays with
    | some d =>
      if d = 0 then
        -- Python: `if expires_in_days:` is false for 0, so no expiry is set
        let t := mkToken st userId name none
        (CreateResult.ok t, { st with apiTokens := st.apiTokens ++ [t], fresh := st.fresh + 1 })
      else if d < 1 ∨ 365 < d then (CreateResult.errExpiryRange, st)
      else
        let t := mkToken st userId name (some (st.now + d * 86400))
        (CreateResult.ok t, { st with apiTokens := st.apiTokens ++ [t], fresh := st.fresh + 1 })
    | none =>
      let t := mkToken st userId name none
      (CreateResult.ok t, { st with apiTokens := st.apiTokens ++ [t], fresh := st.fresh + 1 })
where
  /-- The row built by `APIToken.objects.create(...)` followed by the JWT
  generation in `APIToken.save`: default flags all true, default
  `token_length` 32, fresh id and random material from the store
  freshness counter. -/
  mkToken (st : Store) (userId : Nat) (name : String) (expiresAt : Option Nat) : APIToken :=
    let base : APIToken :=
      { id := st.fresh
        user_id := userId
        name := name
        token := Credential.raw ""
        token_length := 32
        is_active := true
        expires_at := expiresAt
        created_at := st.now
        last_used := none
        can_read_products := true
        can_manage_cart := true
        can_place_orders := true
        can_manage_wishlist := true }
    { base with token := base.generate_jwt_token st.secret st.now st.fresh }

/-- `delete_api_token` (accounts/views.py lines 128-141): fetch the row by
id and owner and delete it; a miss is a 404 that leaves the store
unchanged. -/
def delete_api_token (st : Store) (userId tokenId : Nat) : Store :=
  if st.apiTokens.any (fun t => t.id = tokenId && t.user_id = userId) then
    { st with apiTokens := st.apiTokens.filter (fun t => !(t.id = tokenId && t.user_id = userId)) }
  else st

/-- `toggle_api_token` (accounts/api_views.py lines 87-105): flip
`is_active` on the row with this id owned by this user. -/
def toggle_api_token (st : Store) (userId tokenId : Nat) : Store :=
  { st with apiTokens :=
      st.apiTokens.map (fun t =>
        if t.id = tokenId && t.user_id = userId then { t with is_active := !t.is_active } else t) }

/-- `regenerate_api_token` (accounts/views.py lines 146-169 and
accounts/api_views.py lines 64-82): clear the token field and re-save,
which mints a new JWT for the same row (same id, owner, flags, history) and
stamps `created_at`; returns the new credential. -/
def regenerate_api_token (st : Store) (userId tokenId : Nat) : Option Credential × Store :=
  match st.apiTokens.find? (fun t => t.id = tokenId && t.user_id = userId) with
  | none => (none, st)
  | some t =>
    let newCred := t.generate_jwt_token st.secret st.now st.fresh
    (some newCred,
      { st with fresh := st.fresh + 1
                apiTokens := st.apiTokens.map (fun x =>
                  if x.id = tokenId && x.user_id = userId then
                    { x with token := newCred, created_at := st.now }
                  else x) })

/-- `APITokenPackage.get_duration_days` (subscriptions/models.py). -/
def APITokenPackage.get_duration_days (p : APITokenPackage) : Nat :=
  match p.duration with
  | PackageDuration.week => 7
  | PackageDuration.month => 30
  | PackageDuration.year => 365

/-- `UserAPIToken.create_from_package` (subscriptions/models.py lines
313-346): expiry is now plus the package duration; the minted simplejwt
access token carries `user_id`, `jti`, package claims and an `exp` set to
the same lifetime; the row is persisted with status `active` and zero
usage. -/
def create_from_package (st : Store) (userId : Nat) (pkg : APITokenPackage)
    (orderItemId : Option Nat) : UserAPIToken × Store :=
  let expiresAt := st.now + pkg.get_duration_days * 86400
  let cred := Credential.signed st.secret
    { user_id := some userId
      api_key_id := none
      exp := some expiresAt
      jti := some st.fresh
      iat := st.now
      rand := st.fresh
      package_id := some pkg.id }
  let t : UserAPIToken :=
    { id := st.fresh
      user_id := userId
      token_key := cred
      package_id := pkg.id
      status := TokenStatus.active
      purchased_at := st.now
      expires_at := expiresAt
      api_calls_used := 0
      last_used_at := none
      order_item_id := orderItemId }
  (t, { st with userApiTokens := st.userApiTokens ++ [t], fresh := st.fresh + 1 })

/-- The `for _ in range(item.quantity)` loop of the signal handler:
create one package-bound token per purchased unit. -/
def createTokens (st : Store) (userId : Nat) (pkg : APITokenPackage)
    (orderItemId : Nat) : Nat → Store
  | 0 => st
  | n + 1 =>
    createTokens (create_from_package st userId pkg (some orderItemId)).2 userId pkg orderItemId n

/-- Worker for `splitOnDash`: split the characters at every dash, keeping
empty pieces, as Python `str.split(dash)` does. -/
def splitOnDashAux (cur : List Char) : List Char → List String
  | [] => [String.mk cur.reverse]
  | c :: rest =>
    if c = '-' then String.mk cur.reverse :: splitOnDashAux [] rest
    else splitOnDashAux (c :: cur) rest

/-- Python `str.split(dash)`. -/
def splitOnDash (s : String) : List String :=
  splitOnDashAux [] s.data

/-- Python `str.startswith(other)`. -/
def strStartsWith (s pre : String) : Bool :=
  pre.data.isPrefixOf s.data

/-- Python `int(s)` on a plain digit string; anything else raises the
`ValueError` the signal handler swallows. -/
def strToNat? (s : String) : Option Nat :=
  if s.data ≠ [] ∧ s.data.all (fun c => c.isDigit) then
    some (s.data.foldl (fun a c => a * 10 + (c.toNat - 48)) 0)
  else none

/-- `item.product.sku.split(dash)[1]` coerced to a package primary key:
yields the piece after the first dash when it parses as a number. -/
def skuPackageId (sku : String) : Option Nat :=
  strToNat? ((splitOnDash sku).getD 1 "")

/-- One iteration of the loop in `create_api_tokens_on_payment`
(subscriptions/signals.py): only SKUs starting with `API-` are considered;
a bad package id or a missing package is swallowed by the `except` and the
item is skipped; tokens already linked to the order item suppress
creation. -/
def processItem (userId : Nat) (st : Store) (item : OrderItem) : Store :=
  match item.product_sku with
  | none => st
  | some sku =>
    if strStartsWith sku "API-" then
      match skuPackageId sku with
      | none => st
      | some pid =>
        match st.packages.find? (fun p => p.id = pid) with
        | none => st
        | some pkg =>
          if (st.userApiTokens.filter (fun t => t.order_item_id = some item.id)).isEmpty then
            createTokens st userId pkg item.id item.quantity
          else st
    else st

/-- `create_api_tokens_on_payment` (subscriptions/signals.py): on a
post-save of an existing order whose `payment_status` is `paid`, walk its
items and create the package-bound tokens. -/
def create_api_tokens_on_payment (st : Store) (o : Order) (created : Bool) : Store :=
  if created then st
  else if o.payment_status = "paid" then o.items.foldl (processItem o.user_id) st
  else st

/-- What `request.auth` can be after DRF authentication: nothing (session
auth), a legacy `APIToken` row, a `UserAPIToken` row, or a validated
simplejwt token object. -/
inductive RequestAuth where
  | session
  | legacy (t : APIToken)
  | subscription (t : UserAPIToken)
  | jwt (p : Payload)
deriving DecidableEq

/-- `CanPlaceOrders.has_permission` (accounts/permissions.py lines 39-54):
unauthenticated requests are denied; `hasattr(request.auth, can_place_orders)`
 holds exactly for legacy `APIToken` principals, whose
flag then decides; every other authenticated principal is allowed. -/
def canPlaceOrders_has_permission (userAuthenticated : Bool) (auth : RequestAuth) : Bool :=
  if !userAuthenticated then false
  else
    match auth with
    | RequestAuth.legacy t => t.can_place_orders
    | _ => true

/-- Whether a header outcome is an `AuthenticationFailed` response. -/
def HeaderOutcome.isFailure : HeaderOutcome → Bool
  | HeaderOutcome.failedMsg _ => true
  | _ => false

/-- Whether a resolution outcome is an `AuthenticationFailed` response. -/
def AuthOutcome.isFailed : AuthOutcome → Bool
  | AuthOutcome.failed _ => true
  | _ => false

/-- Whether a resolution outcome is a successful authentication. -/
def AuthOutcome.isSuccess : AuthOutcome → Bool
  | AuthOutcome.success _ _ => true
  | _ => false

/-- The package-bound token rows linked to an order line. -/
def tokensFor (st : Store) (orderItemId : Nat) : List UserAPIToken :=
  st.userApiTokens.filter (fun t => t.order_item_id = some orderItemId)

/-- Fixture: one active user, empty token tables, secret `k`, clock 100. -/
def exStore : Store :=
  { users := [{ id := 1, is_active := true }], apiTokens := [], userApiTokens := [],
    packages := [], secret := "k", now := 100, fresh := 1 }

/-- Fixture: the legacy token row minted by `create_api_token exStore 1
"primary" none`, before its JWT is attached. -/
def c1Base : APIToken :=
  { id := 1, user_id := 1, name := "primary", token := Credential.raw "",
    token_length := 32, is_active := true, expires_at := none, created_at := 100,
    last_used := none, can_read_products := true, can_manage_cart := true,
    can_place_orders := true, can_manage_wishlist := true }

/-- Fixture: the same row with its minted JWT. -/
def c1Token : APIToken :=
  { c1Base with token := c1Base.generate_jwt_token "k" 100 1 }

/-- Fixture: the store right after that creation. -/
def c1St1 : Store := { exStore with apiTokens := [c1Token], fresh := 2 }

/-- Fixture: the regeneration of that token. -/
def c1Regen : Option Credential × Store := regenerate_api_token c1St1 1 1

/-- Fixture: the credential minted by the regeneration. -/
def c1NewCred : Credential := c1Token.generate_jwt_token "k" 100 2

/-- Fixture: the regenerated row as the resolver returns it (the
`last_used` stamp applied by `validate_token`). -/
def c1After : APIToken := { c1Token with token := c1NewCred, last_used := some 100 }

/-- Fixture: a generic signed JWT payload for user 1 carrying `jti` and an
unexpired `exp`, with no `api_key_id` claim — a plain simplejwt access
token that matches no store record. -/
def exPlainPayload : Payload :=
  { user_id := some 1, api_key_id := none, exp := some 200, jti := some 5,
    iat := 0, rand := 0, package_id := none }

/-- Fixture: that payload signed with the process secret. -/
def exPlainJwt : Credential := Credential.signed "k" exPlainPayload

/-- Fixture: the credential of an already-expired package-bound token
(embedded `exp` equal to the row `expires_at` value, as
`create_from_package` mints it). -/
def exExpiredCred : Credential :=
  Credential.signed "k"
    { user_id := some 1, api_key_id := none, exp := some 50, jti := some 9,
      iat := 0, rand := 9, package_id := some 3 }

/-- Fixture: an expired package-bound row whose status is still `active`
(the sweep has not run yet). -/
def exExpiredRow : UserAPIToken :=
  { id := 7, user_id := 1, token_key := exExpiredCred, package_id := 3,
    status := TokenStatus.active, purchased_at := 0, expires_at := 50,
    api_calls_used := 2, last_used_at := none, order_item_id := none }

/-- Fixture: the store holding that expired row, clock at 60. -/
def exExpiredStore : Store := { exStore with userApiTokens := [exExpiredRow], now := 60 }

/-- Fixture: a legacy token row that expired at time 50. -/
def c2Tok : APIToken := { c1Base with expires_at := some 50 }

/-- Fixture: a store in which user 1 owns ten active legacy tokens. -/
def c7Store : Store :=
  { exStore with apiTokens := (List.range 10).map (fun i => { c1Base with id := i + 1 }) }

/-- Fixture: the first of those ten tokens. -/
def c7Removed : APIToken := { c1Base with id := 1 }

/-- Fixture: an API token package with a one-week duration. -/
def c8Pkg : APITokenPackage :=
  { id := 3, name := "Basic", duration := PackageDuration.week,
    api_calls_per_month := 1000, is_active := true }

/-- Fixture: an order line for two units of the package product `API-3`. -/
def c8Item : OrderItem := { id := 21, product_sku := some "API-3", quantity := 2 }

/-- Fixture: a paid order holding that line. -/
def c8Order : Order := { id := 5, user_id := 1, payment_status := "paid", items := [c8Item] }

/-- Fixture: a store that knows the package and holds no tokens yet. -/
def c8Store : Store := { exStore with packages := [c8Pkg] }

/-- Fixture: a legacy token whose order-placement flag is off. -/
def c9Tok : APIToken := { c1Base with can_place_orders := false }

/-- Helper: dropping at least one element strictly shrinks a filter. -/
theorem length_filter_lt_of_mem_not {α : Type} (l : List α) (p : α → Bool) (x : α)
    (hx : x ∈ l) (hpx : p x = false) : (l.filter p).length < l.length := by
  induction l with
  | nil => cases hx
  | cons a t ih =>
    rcases List.mem_cons.mp hx with h | h
    · subst h
      simp [List.filter_cons, hpx]
      exact Nat.lt_succ_of_le (List.length_filter_le p t)
    · have := ih h
      by_cases hpa : p a = true
      · simpa [List.filter_cons, hpa] using Nat.succ_lt_succ this
      · simp only [Bool.not_eq_true] at hpa
        simp [List.filter_cons, hpa]
        omega

/-- Helper: toggling the active flag of an active row owned by the user
(with primary keys unique, as the database guarantees) shrinks the count
of the owner's active rows by exactly one. -/
theorem toggle_active_count (uid tid : Nat) (t0 : APIToken) :
    ∀ (l : List APIToken),
      (l.map APIToken.id).Nodup → t0 ∈ l → t0.id = tid → t0.user_id = uid →
      t0.is_active = true →
      ((l.map (fun t => if t.id = tid && t.user_id = uid then
          { t with is_active := !t.is_active } else t)).filter
        (fun t => t.user_id = uid && t.is_active)).length + 1
      = (l.filter (fun t => t.user_id = uid && t.is_active)).length := by
  intro l
  induction l with
  | nil => intro _ hmem _ _ _; cases hmem
  | cons a rest ih =>
    intro hnodup hmem hid howner hact
    rw [List.map_cons, List.nodup_cons] at hnodup
    obtain ⟨hnotin, hnodup2⟩ := hnodup
    rcases List.mem_cons.mp hmem with rfl | hmem2
    · -- the head is the revoked token
      have hga : (if t0.id = tid && t0.user_id = uid then
          { t0 with is_active := !t0.is_active } else t0)
          = { t0 with is_active := false } := by
        simp [hid, howner, hact]
      have hrest : rest.map (fun t => if t.id = tid && t.user_id = uid then
          { t with is_active := !t.is_active } else t) = rest := by
        have hcongr : ∀ x ∈ rest, (if x.id = tid && x.user_id = uid then
            { x with is_active := !x.is_active } else x) = x := by
          intro x hx
          have hxid : x.id ≠ tid := by
            intro hxid
            exact hnotin (hid ▸ hxid ▸ List.mem_map_of_mem APIToken.id hx)
          simp [hxid]
        calc rest.map _ = rest.map id := List.map_congr_left hcongr
          _ = rest := List.map_id rest
      rw [List.map_cons, hga, hrest]
      simp [List.filter_cons, howner, hact]
    · -- the revoked token sits in the tail
      have haid : a.id ≠ tid := by
        intro haid
        exact hnotin (haid ▸ hid ▸ List.mem_map_of_mem APIToken.id hmem2)
      have hga : (if a.id = tid && a.user_id = uid then
          { a with is_active := !a.is_active } else a) = a := by
        simp [haid]
      rw [List.map_cons, hga]
      simp only [List.filter_cons]
      have := ih hnodup2 hmem2 hid howner hact
      by_cases hPa : (decide (a.user_id = uid) && a.is_active) = true
      · rw [if_pos hPa, if_pos hPa]
        simp only [List.length_cons]
        omega
      · rw [if_neg hPa, if_neg hPa]
        omega

/-- Helper: when `validate_token` succeeds, the store it returns is the
input store with exactly the `last_used` stamp of the returned row and the
package-bound table untouched. -/
theorem validate_token_store_eq (st : Store) (c : Credential) (t : APIToken) (st' : Store)
    (h : validate_token st c = some (t, st')) :
    st' = touchLastUsed st t.id ∧ st'.userApiTokens = st.userApiTokens := by
  unfold validate_token at h
  repeat' split at h
  all_goals try exact Option.noConfusion h
  rw [Option.some.injEq, Prod.mk.injEq] at h
  obtain ⟨ht, hst⟩ := h
  subst ht
  subst hst
  exact ⟨rfl, rfl⟩

/-- Helper: a successful `legacyFallback` either comes from a legacy-token
hit (stamping `last_used`) or passes the miss outcome through with the
store untouched. -/
theorem legacyFallback_success_cases (st : Store) (c : Credential) (onMiss : AuthOutcome)
    (uid : Nat) (pr : AuthPrincipal) (st' : Store)
    (h : legacyFallback st c onMiss = (AuthOutcome.success uid pr, st')) :
    (∃ t, pr = AuthPrincipal.legacy t ∧ st' = touchLastUsed st t.id
      ∧ st'.userApiTokens = st.userApiTokens)
    ∨ (onMiss = AuthOutcome.success uid pr ∧ st' = st) := by
  unfold legacyFallback at h
  split at h
  case _ t st1 heq =>
    rw [Prod.mk.injEq, AuthOutcome.success.injEq] at h
    obtain ⟨⟨hu1, hp1⟩, hs1⟩ := h
    left
    refine ⟨t, hp1.symm, ?_, ?_⟩
    · rw [← hs1]
      exact (validate_token_store_eq st c t st1 heq).1
    · rw [← hs1]
      exact (validate_token_store_eq st c t st1 heq).2
  case _ =>
    rw [Prod.mk.injEq] at h
    exact Or.inr ⟨h.1, h.2.symm⟩

/-- Helper: a credential signed with the process secret whose embedded
`exp` is in the past fails both decoders, so the resolver collapses it to
the invalid-token failure and leaves the store untouched. -/
theorem resolve_expired_signed (st : Store) (p : Payload) (e : Nat)
    (hexp : p.exp = some e) (hlt : e < st.now) :
    resolve st (Credential.signed st.secret p)
      = (AuthOutcome.failed AuthError.invalidToken, st) := by
  have h1 : ¬ st.now < e := by omega
  simp [resolve, untypedDecode, legacyFallback, validate_token, pyjwtDecode, hexp, h1]

/-- Helper: once a bearer credential is presented, the resolver never
returns the no-credential outcome. -/
theorem resolve_never_anonymous (st : Store) (c : Credential) :
    (resolve st c).1 ≠ AuthOutcome.noCredential := by
  unfold resolve legacyFallback
  repeat' split <;> try simp_all

/-- Helper: a freshly created package token does not land on a different
order line. -/
theorem tokensFor_cfp_ne (st : Store) (u : Nat) (pkg : APITokenPackage) (oi : Option Nat)
    (oid : Nat) (h : oi ≠ some oid) :
    tokensFor (create_from_package st u pkg oi).2 oid = tokensFor st oid := by
  simp [tokensFor, create_from_package, List.filter_append, h]

/-- Helper: a freshly created package token lands on its own order line. -/
theorem tokensFor_cfp_eq (st : Store) (u : Nat) (pkg : APITokenPackage) (oid : Nat) :
    tokensFor (create_from_package st u pkg (some oid)).2 oid
      = tokensFor st oid ++ [(create_from_package st u pkg (some oid)).1] := by
  simp [tokensFor, create_from_package, List.filter_append]

/-- Helper: the creation loop adds exactly its count of tokens to the
target order line. -/
theorem tokensFor_createTokens (u : Nat) (pkg : APITokenPackage) (oid : Nat) :
    ∀ (n : Nat) (st : Store),
      (tokensFor (createTokens st u pkg oid n) oid).length = (tokensFor st oid).length + n := by
  intro n
  induction n with
  | zero => intro st; rfl
  | succ m ih =>
    intro st
    simp only [createTokens]
    rw [ih, tokensFor_cfp_eq]
    simp [List.length_append]
    omega

/-- Helper: the creation loop leaves other order lines alone. -/
theorem tokensFor_createTokens_ne (u : Nat) (pkg : APITokenPackage) (oid' oid : Nat)
    (h : oid' ≠ oid) :
    ∀ (n : Nat) (st : Store),
      tokensFor (createTokens st u pkg oid' n) oid = tokensFor st oid := by
  intro n
  induction n with
  | zero => intro st; rfl
  | succ m ih =>
    intro st
    simp only [createTokens]
    rw [ih, tokensFor_cfp_ne]
    simp [h]

/-- Helper: the creation loop never writes the package table. -/
theorem createTokens_packages (u : Nat) (pkg : APITokenPackage) (oid : Nat) :
    ∀ (n : Nat) (st : Store), (createTokens st u pkg oid n).packages = st.packages := by
  intro n
  induction n with
  | zero => intro st; rfl
  | succ m ih =>
    intro st
    simp only [createTokens]
    rw [ih]
    rfl

/-- Helper: processing one order item never writes the package table. -/
theorem processItem_packages (u : Nat) (st : Store) (it : OrderItem) :
    (processItem u st it).packages = st.packages := by
  unfold processItem
  repeat' split
  all_goals try rfl
  exact createTokens_packages ..

/-- Helper: processing a list of order items never writes the package
table. -/
theorem foldl_processItem_packages (u : Nat) :
    ∀ (l : List OrderItem) (st : Store),
      (l.foldl (processItem u) st).packages = st.packages := by
  intro l
  induction l with
  | nil => intro st; rfl
  | cons a t ih =>
    intro st
    rw [List.foldl_cons, ih, processItem_packages]

/-- Helper: processing an item with another id leaves the target order
line alone. -/
theorem tokensFor_processItem_ne (u : Nat) (st : Store) (it : OrderItem) (oid : Nat)
    (h : it.id ≠ oid) :
    tokensFor (processItem u st it) oid = tokensFor st oid := by
  unfold processItem
  repeat' split
  all_goals try rfl
  exact tokensFor_createTokens_ne u _ it.id oid h it.quantity st

/-- Helper: once tokens are linked to an order line, re-processing that
item is a no-op (the existence guard of the signal handler). -/
theorem processItem_frozen (u : Nat) (st : Store) (it : OrderItem)
    (h : tokensFor st it.id ≠ []) : processItem u st it = st := by
  unfold processItem
  repeat' split
  all_goals try rfl
  exact absurd (List.isEmpty_iff.mp (by assumption)) h

/-- Helper: folding over items whose ids differ from the target leaves the
target order line alone. -/
theorem tokensFor_foldl_ne (u : Nat) (oid : Nat) :
    ∀ (l : List OrderItem) (st : Store), (∀ x ∈ l, x.id ≠ oid) →
      tokensFor (l.foldl (processItem u) st) oid = tokensFor st oid := by
  intro l
  induction l with
  | nil => intro st _; rfl
  | cons a t ih =>
    intro st h
    rw [List.foldl_cons, ih _ (fun x hx => h x (List.mem_cons_of_mem a hx)),
      tokensFor_processItem_ne u st a oid (h a (List.mem_cons_self a t))]

/-- Helper: with a matching package and no tokens yet on the line,
processing the item reduces to the creation loop. -/
theorem processItem_fresh_step (u : Nat) (st : Store) (it : OrderItem) (sku : String)
    (pid : Nat) (pkg : APITokenPackage)
    (hsku : it.product_sku = some sku) (hAPI : strStartsWith sku "API-" = true)
    (hpid : skuPackageId sku = some pid)
    (hfind : st.packages.find? (fun p => p.id = pid) = some pkg)
    (hempty : tokensFor st it.id = []) :
    processItem u st it = createTokens st u pkg it.id it.quantity := by
  have he : (st.userApiTokens.filter (fun t => t.order_item_id = some it.id)).isEmpty = true := by
    have h0 : st.userApiTokens.filter (fun t => t.order_item_id = some it.id) = [] := hempty
    simp [h0]
  simp [processItem, hsku, hAPI, hpid, hfind, he]

/-- C1: after `regenerate_api_token` mints a new credential for a legacy
token record, presenting the OLD credential to the authentication resolver
still succeeds, because `APIToken.validate_token` looks the record up by
the `api_key_id` claim embedded in the JWT and never compares the stored
token string against the presented one.  The new credential also succeeds,
and the record keeps its owner, permission flags and history, so the
preservation half of the claim holds while the old-credential-fails half
is violated by the code. -/
theorem regenerated_token_old_credential_still_validates :
    create_api_token exStore 1 "primary" none = (CreateResult.ok c1Token, c1St1)
    ∧ c1Regen.1 = some c1NewCred
    ∧ c1NewCred ≠ c1Token.token
    ∧ (resolve c1Regen.2 c1Token.token).1 = AuthOutcome.success 1 (AuthPrincipal.legacy c1After)
    ∧ (resolve c1Regen.2 c1NewCred).1 = AuthOutcome.success 1 (AuthPrincipal.legacy c1After)
    ∧ c1After.user_id = c1Token.user_id
    ∧ c1After.can_read_products = c1Token.can_read_products
    ∧ c1After.can_manage_cart = c1Token.can_manage_cart
    ∧ c1After.can_place_orders = c1Token.can_place_orders
    ∧ c1After.can_manage_wishlist = c1Token.can_manage_wishlist := by
  decide

/-- C2 counterexample: a package-bound token whose `expires_at` (equal to
its embedded `exp`, as minted) is in the past while its status is still
`active` fails resolution with the collapsed invalid-token error, not with
the distinct subscription-expired error the claim names: the codec rejects
the expired `exp` before any store lookup can classify the failure. -/
theorem expired_active_subscription_gets_invalid_token_error :
    (resolve exExpiredStore exExpiredCred).1 = AuthOutcome.failed AuthError.invalidToken
    ∧ (resolve exExpiredStore exExpiredCred).1 ≠ AuthOutcome.failed AuthError.subscriptionExpired
    ∧ exExpiredRow.status = TokenStatus.active
    ∧ exExpiredRow ∈ exExpiredStore.userApiTokens
    ∧ exExpiredRow.token_key = exExpiredCred
    ∧ exExpiredRow.expires_at < exExpiredStore.now := by
  decide

/-- C2 (amended): a credential minted for a legacy token with an
expiration, or minted by `create_from_package` for a package-bound token,
always fails resolution once its expiration timestamp is strictly past —
for every store, hence for every value of the stored `is_active`/`status`
flag — but the failure surfaced is the collapsed `InvalidToken` error and
the store is left untouched. -/
theorem expired_credential_always_fails_resolution :
    (∀ (st : Store) (t : APIToken) (iat rand e : Nat), t.expires_at = some e → e < st.now →
      resolve st (t.generate_jwt_token st.secret iat rand)
        = (AuthOutcome.failed AuthError.invalidToken, st))
    ∧ (∀ (st st2 : Store) (uid : Nat) (pkg : APITokenPackage) (oi : Option Nat),
        st2.secret = st.secret →
        (create_from_package st uid pkg oi).1.expires_at < st2.now →
        resolve st2 (create_from_package st uid pkg oi).1.token_key
          = (AuthOutcome.failed AuthError.invalidToken, st2)) := by
  constructor
  · intro st t iat rand e he hlt
    exact resolve_expired_signed st
      { user_id := some t.user_id, api_key_id := some t.id, exp := t.expires_at,
        jti := none, iat := iat, rand := rand, package_id := none } e he hlt
  · intro st st2 uid pkg oi hsec hlt
    simp only [create_from_package] at hlt ⊢
    rw [← hsec]
    exact resolve_expired_signed st2 _ _ rfl hlt

/-- C2 witness: the amended theorem applied to a concrete legacy token
that expired at time 50, resolved at time 60. -/
theorem expired_credential_always_fails_resolution_witness :
    resolve exExpiredStore (c2Tok.generate_jwt_token exExpiredStore.secret 0 0)
      = (AuthOutcome.failed AuthError.invalidToken, exExpiredStore) :=
  expired_credential_always_fails_resolution.1 exExpiredStore c2Tok 0 0 50 rfl (by decide)

/-- C3 counterexample: a well-formed bearer credential that decodes as a
valid generic signed JWT for an existing active user but matches no
package-bound and no legacy store record does NOT fail with the
invalid-token error — the resolver silently authenticates it as a plain
JWT principal (the default-JWT branch of
`APITokenAuthentication.authenticate`). -/
theorem plain_jwt_without_record_authenticates :
    (resolve exStore exPlainJwt).1 = AuthOutcome.success 1 (AuthPrincipal.jwt exPlainPayload)
    ∧ (resolve exStore exPlainJwt).1.isFailed = false
    ∧ exStore.apiTokens = []
    ∧ exStore.userApiTokens = [] := by
  decide

/-- C3 (amended): once a bearer credential is presented the resolver never
answers with the anonymous outcome; when both the generic JWT decode and
the legacy lookup fail it fails with the collapsed `InvalidToken` error;
but a credential that decodes as a valid generic JWT for an existing
active user while matching no store record resolves successfully as a
plain JWT principal instead of failing. -/
theorem bearer_resolution_failure_behavior :
    (∀ (st : Store) (c : Credential), (resolve st c).1 ≠ AuthOutcome.noCredential)
    ∧ (∀ (st : Store) (c : Credential),
        untypedDecode st.secret st.now c = none → validate_token st c = none →
        resolve st c = (AuthOutcome.failed AuthError.invalidToken, st))
    ∧ (∀ (st : Store) (c : Credential) (p : Payload) (uid : Nat) (u : UserRec),
        untypedDecode st.secret st.now c = some p →
        p.user_id = some uid →
        st.users.find? (fun x => x.id = uid) = some u →
        u.is_active = true →
        st.userApiTokens.find? (fun t =>
          t.token_key = c && t.user_id = uid && t.status = TokenStatus.active) = none →
        validate_token st c = none →
        resolve st c = (AuthOutcome.success uid (AuthPrincipal.jwt p), st)) := by
  refine ⟨resolve_never_anonymous, ?_, ?_⟩
  · intro st c hu hv
    simp [resolve, legacyFallback, hu, hv]
  · intro st c p uid u hu hp hfu hact hfs hv
    simp [resolve, legacyFallback, hu, hp, hfu, hact, hfs, hv]

/-- C3 witness: the amended theorem applied to a junk credential (collapsed
failure) and to a concrete plain JWT for user 1 (silent success). -/
theorem bearer_resolution_failure_behavior_witness :
    resolve exStore (Credential.raw "junk")
      = (AuthOutcome.failed AuthError.invalidToken, exStore)
    ∧ resolve exStore exPlainJwt
      = (AuthOutcome.success 1 (AuthPrincipal.jwt exPlainPayload), exStore) :=
  ⟨bearer_resolution_failure_behavior.2.1 exStore (Credential.raw "junk") rfl rfl,
   bearer_resolution_failure_behavior.2.2 exStore exPlainJwt exPlainPayload 1
     { id := 1, is_active := true } (by decide) rfl (by decide) rfl (by decide) rfl⟩

/-- C4 counterexample: a present Authorization header that does not match
the bearer shape — wrong scheme, or extra whitespace-delimited parts — is
answered by `APITokenAuthentication` with the same `None` as an absent
header, not with a malformed-header failure as the claim states. -/
theorem malformed_header_returns_none_not_failure :
    apiTokenHeaderOutcome (some "Basic abc") = HeaderOutcome.anonymous
    ∧ (apiTokenHeaderOutcome (some "Basic abc")).isFailure = false
    ∧ apiTokenHeaderOutcome (some "Bearer a b") = HeaderOutcome.anonymous
    ∧ (apiTokenHeaderOutcome (some "Bearer a b")).isFailure = false
    ∧ apiTokenHeaderOutcome none = HeaderOutcome.anonymous := by
  decide

/-- C4 (amended): `APITokenAuthentication` never raises for header shape —
an absent header and EVERY malformed header (any shape other than exactly
two whitespace-delimited parts with first part `bearer` case-insensitive)
alike yield `None`, while the well-formed shape yields the token part; a
malformed-header failure exists only in `APIKeyAuthentication`, and there
exactly when the scheme is `bearer` but the part count is one or exceeds
two (both directions proven), while a wrong scheme again yields `None`. -/
theorem header_parsing_behavior :
    (∀ h, (apiTokenHeaderOutcome h).isFailure = false)
    ∧ apiTokenHeaderOutcome none = HeaderOutcome.anonymous
    ∧ (∀ h : String, ¬((pySplit h).length = 2 ∧ strLower ((pySplit h).headD "") = "bearer") →
        apiTokenHeaderOutcome (some h) = HeaderOutcome.anonymous)
    ∧ (∀ h : String, (pySplit h).length = 2 → strLower ((pySplit h).headD "") = "bearer" →
        apiTokenHeaderOutcome (some h) = HeaderOutcome.token ((pySplit h).getD 1 ""))
    ∧ (∀ h : String, strLower ((pySplit h).headD "") = "bearer" →
        ((pySplit h).length = 1 ∨ 2 < (pySplit h).length) →
        (apiKeyHeaderOutcome (some h)).isFailure = true)
    ∧ (∀ (h m : String), apiKeyHeaderOutcome (some h) = HeaderOutcome.failedMsg m →
        strLower ((pySplit h).headD "") = "bearer"
        ∧ ((pySplit h).length = 1 ∨ 2 < (pySplit h).length))
    ∧ (∀ h : String, strLower ((pySplit h).headD "") ≠ "bearer" →
        apiKeyHeaderOutcome (some h) = HeaderOutcome.anonymous) := by
  refine ⟨?_, rfl, ?_, ?_, ?_, ?_, ?_⟩
  · intro h
    cases h with
    | none => rfl
    | some s =>
      unfold apiTokenHeaderOutcome
      repeat' split
      all_goals rfl
  · intro h hshape
    simp only [apiTokenHeaderOutcome]
    by_cases he : h = ""
    · rw [if_pos he]
    · rw [if_neg he]
      have hc : (pySplit h).length ≠ 2 ∨ strLower ((pySplit h).headD "") ≠ "bearer" := by
        rcases Decidable.em ((pySplit h).length = 2) with h2 | h2
        · exact Or.inr (fun hb => hshape ⟨h2, hb⟩)
        · exact Or.inl h2
      rw [if_pos hc]
  · intro h h2 hb
    by_cases he : h = ""
    · rw [he] at h2
      exact absurd h2 (by decide)
    · have hc : ¬((pySplit h).length ≠ 2 ∨ strLower ((pySplit h).headD "") ≠ "bearer") := by
        rw [not_or]
        exact ⟨not_not_intro h2, not_not_intro hb⟩
      simp only [apiTokenHeaderOutcome]
      rw [if_neg he, if_neg hc]
  · intro h hsch hlen
    by_cases he : h = ""
    · rw [he] at hsch
      exact absurd hsch (by decide)
    · have hlen0 : (pySplit h).length ≠ 0 := by
        intro h0
        rw [List.length_eq_zero.mp h0] at hsch
        exact absurd hsch (by decide)
      have hc : ¬((pySplit h).length = 0 ∨ strLower ((pySplit h).headD "") ≠ "bearer") := by
        rw [not_or]
        exact ⟨hlen0, not_not_intro hsch⟩
      simp only [apiKeyHeaderOutcome]
      rw [if_neg he, if_neg hc]
      rcases hlen with h1 | h2
      · rw [if_pos h1]
        rfl
      · have hn1 : (pySplit h).length ≠ 1 := by omega
        rw [if_neg hn1, if_pos h2]
        rfl
  · intro h m hf
    simp only [apiKeyHeaderOutcome] at hf
    by_cases he : h = ""
    · rw [if_pos he] at hf
      exact HeaderOutcome.noConfusion hf
    · rw [if_neg he] at hf
      by_cases hsc : (pySplit h).length = 0 ∨ strLower ((pySplit h).headD "") ≠ "bearer"
      · rw [if_pos hsc] at hf
        exact HeaderOutcome.noConfusion hf
      · rw [if_neg hsc] at hf
        rw [not_or] at hsc
        by_cases h1 : (pySplit h).length = 1
        · exact ⟨by simpa using hsc.2, Or.inl h1⟩
        · rw [if_neg h1] at hf
          by_cases h2 : (pySplit h).length > 2
          · exact ⟨by simpa using hsc.2, Or.inr h2⟩
          · rw [if_neg h2] at hf
            exact HeaderOutcome.noConfusion hf
  · intro h hs
    by_cases he : h = ""
    · simp [apiKeyHeaderOutcome, he]
    · have hc : (pySplit h).length = 0 ∨ strLower ((pySplit h).headD "") ≠ "bearer" := Or.inr hs
      simp only [apiKeyHeaderOutcome]
      rw [if_neg he, if_pos hc]

/-- C4 witness: the amended theorem applied to a wrong-scheme header
(`None` from both classes), a well-formed header (token extracted), the
bare `Bearer` header and a three-part `Bearer a b` header (the two failing
shapes in `APIKeyAuthentication`, raising in both directions of the
biconditional). -/
theorem header_parsing_behavior_witness :
    apiTokenHeaderOutcome (some "Basic abc") = HeaderOutcome.anonymous
    ∧ apiTokenHeaderOutcome (some "Bearer tok") = HeaderOutcome.token "tok"
    ∧ (apiKeyHeaderOutcome (some "Bearer")).isFailure = true
    ∧ (apiKeyHeaderOutcome (some "Bearer a b")).isFailure = true
    ∧ (strLower ((pySplit "Bearer a b").headD "") = "bearer"
      ∧ ((pySplit "Bearer a b").length = 1 ∨ 2 < (pySplit "Bearer a b").length))
    ∧ apiKeyHeaderOutcome (some "Token x") = HeaderOutcome.anonymous :=
  ⟨header_parsing_behavior.2.2.1 "Basic abc" (by decide),
   header_parsing_behavior.2.2.2.1 "Bearer tok" (by decide) (by decide),
   header_parsing_behavior.2.2.2.2.1 "Bearer" (by decide) (by decide),
   header_parsing_behavior.2.2.2.2.1 "Bearer a b" (by decide) (by decide),
   header_parsing_behavior.2.2.2.2.2.1 "Bearer a b"
     "Invalid token header. Token string should not contain spaces." (by decide),
   header_parsing_behavior.2.2.2.2.2.2 "Token x" (by decide)⟩

/-- C5 counterexample: a successful resolution of a bearer credential that
takes the default-JWT branch updates no usage or last-used marker at all —
the store after resolution is exactly the store before — contradicting the
never-zero-records half of the claim. -/
theorem plain_jwt_success_updates_no_records :
    (resolve exStore exPlainJwt).1.isSuccess = true
    ∧ (resolve exStore exPlainJwt).2 = exStore := by
  decide

/-- C5 (amended): a successful resolution as a package-bound token bumps
exactly the usage counter and last-used stamp of that row and leaves the
legacy table untouched; a successful resolution as a legacy token stamps
exactly that row and leaves the package-bound table untouched — never
both; a successful resolution as a plain JWT (default-JWT branch) updates
no record at all. -/
theorem successful_resolution_updates_at_most_one_record (st : Store) (c : Credential)
    (uid : Nat) (pr : AuthPrincipal) (st' : Store)
    (h : resolve st c = (AuthOutcome.success uid pr, st')) :
    (∃ t, pr = AuthPrincipal.subscription t
        ∧ st' = incrementUsage st t.id ∧ st'.apiTokens = st.apiTokens)
    ∨ (∃ t, pr = AuthPrincipal.legacy t
        ∧ st' = touchLastUsed st t.id ∧ st'.userApiTokens = st.userApiTokens)
    ∨ (∃ p, pr = AuthPrincipal.jwt p ∧ st' = st) := by
  unfold resolve at h
  repeat' split at h
  all_goals try (rw [Prod.mk.injEq] at h; exact AuthOutcome.noConfusion h.1)
  all_goals try
    (rcases legacyFallback_success_cases _ _ _ _ _ _ h with ⟨t, hpr, hst, hua⟩ | ⟨hmiss, hst⟩
     · exact Or.inr (Or.inl ⟨t, hpr, hst, hua⟩)
     · first
       | exact AuthOutcome.noConfusion hmiss
       | (rw [AuthOutcome.success.injEq] at hmiss
          exact Or.inr (Or.inr ⟨_, hmiss.2.symm, hst⟩)))
  rw [Prod.mk.injEq, AuthOutcome.success.injEq] at h
  obtain ⟨⟨hu1, hp1⟩, hs1⟩ := h
  exact Or.inl ⟨_, hp1.symm, hs1.symm, hs1 ▸ rfl⟩

/-- C5 witness: the amended theorem applied to the concrete plain-JWT
resolution, which lands in the no-update disjunct. -/
theorem successful_resolution_updates_at_most_one_record_witness :
    (∃ t, AuthPrincipal.jwt exPlainPayload = AuthPrincipal.subscription t
        ∧ exStore = incrementUsage exStore t.id ∧ exStore.apiTokens = exStore.apiTokens)
    ∨ (∃ t, AuthPrincipal.jwt exPlainPayload = AuthPrincipal.legacy t
        ∧ exStore = touchLastUsed exStore t.id ∧ exStore.userApiTokens = exStore.userApiTokens)
    ∨ (∃ p, AuthPrincipal.jwt exPlainPayload = AuthPrincipal.jwt p ∧ exStore = exStore) :=
  successful_resolution_updates_at_most_one_record exStore exPlainJwt 1
    (AuthPrincipal.jwt exPlainPayload) exStore (by decide)

/-- C6: decoding a credential minted by `APIToken.generate_jwt_token` with
the same process secret, at any time before its optional expiry, yields
exactly the claims that were encoded — the codec round-trip. -/
theorem codec_round_trip (secret : String) (now iat rand : Nat) (t : APIToken)
    (h : ∀ e, t.expires_at = some e → now < e) :
    pyjwtDecode secret now (t.generate_jwt_token secret iat rand) =
      some { user_id := some t.user_id, api_key_id := some t.id, exp := t.expires_at,
             jti := none, iat := iat, rand := rand, package_id := none } := by
  cases he : t.expires_at with
  | none => simp [pyjwtDecode, APIToken.generate_jwt_token, he]
  | some e => simp [pyjwtDecode, APIToken.generate_jwt_token, he, h e he]

/-- C6 witness: the round-trip at a concrete non-expiring token. -/
theorem codec_round_trip_witness :
    pyjwtDecode "k" 100 (c1Base.generate_jwt_token "k" 90 5) =
      some { user_id := some 1, api_key_id := some 1, exp := none,
             jti := none, iat := 90, rand := 5, package_id := none } :=
  codec_round_trip "k" 100 90 5 c1Base (fun _ he => Option.noConfusion he)

/-- C7: with ten active tokens already owned (primary keys unique, as the
database guarantees), a create call for that user fails with the
token-limit error and leaves the store unchanged; after revoking one of
the ten — whether by deleting it (`delete_api_token`) or by deactivating
it (`toggle_api_token`) — the same create call succeeds. -/
theorem token_cap_blocks_eleventh_create (st : Store) (uid tid : Nat) (name : String)
    (t0 : APIToken)
    (h_nodup : (st.apiTokens.map APIToken.id).Nodup)
    (h_count : (st.apiTokens.filter (fun t => t.user_id = uid && t.is_active)).length = 10)
    (h_name : name ≠ "")
    (h_fresh : ∀ t ∈ st.apiTokens, ¬(t.user_id = uid ∧ t.name = name))
    (h_mem : t0 ∈ st.apiTokens) (h_owner : t0.user_id = uid)
    (h_active : t0.is_active = true) (h_id : t0.id = tid) :
    create_api_token st uid name none = (CreateResult.errLimit, st)
    ∧ (∃ t, (create_api_token (delete_api_token st uid tid) uid name none).1
        = CreateResult.ok t)
    ∧ (∃ t, (create_api_token (toggle_api_token st uid tid) uid name none).1
        = CreateResult.ok t) := by
  have hany : st.apiTokens.any (fun t => t.user_id = uid && t.name = name) = false := by
    rw [List.any_eq_false]
    intro t ht
    simp only [Bool.and_eq_true, decide_eq_true_eq, not_and]
    intro hu hn
    exact h_fresh t ht ⟨hu, hn⟩
  refine ⟨?_, ?_, ?_⟩
  · have hle : 10 ≤ (st.apiTokens.filter (fun t => t.user_id = uid && t.is_active)).length := by
      omega
    simp [create_api_token, h_name, hany, hle]
  · have hdel : st.apiTokens.any (fun t => t.id = tid && t.user_id = uid) = true := by
      rw [List.any_eq_true]
      exact ⟨t0, h_mem, by simp [h_id, h_owner]⟩
    have hst2 : (delete_api_token st uid tid).apiTokens
        = st.apiTokens.filter (fun t => !(t.id = tid && t.user_id = uid)) := by
      simp [delete_api_token, hdel]
    have hmemP : t0 ∈ st.apiTokens.filter (fun t => t.user_id = uid && t.is_active) :=
      List.mem_filter.mpr ⟨h_mem, by simp [h_owner, h_active]⟩
    have hQ : (fun t : APIToken => !(t.id = tid && t.user_id = uid)) t0 = false := by
      simp [h_id, h_owner]
    have hlt :
        ((st.apiTokens.filter (fun t => t.user_id = uid && t.is_active)).filter
          (fun t => !(t.id = tid && t.user_id = uid))).length
          < (st.apiTokens.filter (fun t => t.user_id = uid && t.is_active)).length :=
      length_filter_lt_of_mem_not _ _ t0 hmemP hQ
    have hcomm :
        (st.apiTokens.filter (fun t => !(t.id = tid && t.user_id = uid))).filter
            (fun t => t.user_id = uid && t.is_active)
          = (st.apiTokens.filter (fun t => t.user_id = uid && t.is_active)).filter
            (fun t => !(t.id = tid && t.user_id = uid)) := by
      rw [List.filter_filter, List.filter_filter]
      exact List.filter_congr (fun a _ => by rw [Bool.and_comm])
    have hcap2 : ¬ 10 ≤
        (((delete_api_token st uid tid).apiTokens).filter
          (fun t => t.user_id = uid && t.is_active)).length := by
      rw [hst2, hcomm]
      omega
    have hany2 : ((delete_api_token st uid tid).apiTokens).any
        (fun t => t.user_id = uid && t.name = name) = false := by
      rw [List.any_eq_false]
      intro t ht
      rw [hst2] at ht
      have := List.mem_filter.mp ht
      simp only [Bool.and_eq_true, decide_eq_true_eq, not_and]
      intro hu hn
      exact h_fresh t this.1 ⟨hu, hn⟩
    simp [create_api_token, h_name, hany2, hcap2]
  · have hcount2 : (((toggle_api_token st uid tid).apiTokens).filter
        (fun t => t.user_id = uid && t.is_active)).length + 1 = 10 := by
      rw [← h_count]
      exact toggle_active_count uid tid t0 st.apiTokens h_nodup h_mem h_id h_owner h_active
    have hcap3 : ¬ 10 ≤
        (((toggle_api_token st uid tid).apiTokens).filter
          (fun t => t.user_id = uid && t.is_active)).length := by
      omega
    have hany3 : ((toggle_api_token st uid tid).apiTokens).any
        (fun t => t.user_id = uid && t.name = name) = false := by
      rw [List.any_eq_false]
      intro t ht
      obtain ⟨x, hx, hxt⟩ := List.mem_map.mp ht
      have hux : t.user_id = x.user_id := by
        rw [← hxt]
        split <;> rfl
      have hnx : t.name = x.name := by
        rw [← hxt]
        split <;> rfl
      simp only [Bool.and_eq_true, decide_eq_true_eq, not_and]
      intro hu hn
      refine h_fresh x hx ⟨?_, ?_⟩
      · rw [← hux]
        exact hu
      · rw [← hnx]
        exact hn
    simp [create_api_token, h_name, hany3, hcap3]

/-- C7 witness: the cap theorem applied to a concrete store in which user
1 owns ten active tokens (ids 1 through 10), revoking the token with id 1
once by deletion and once by deactivation. -/
theorem token_cap_blocks_eleventh_create_witness :
    create_api_token c7Store 1 "eleventh" none = (CreateResult.errLimit, c7Store)
    ∧ (∃ t, (create_api_token (delete_api_token c7Store 1 1) 1 "eleventh" none).1
        = CreateResult.ok t)
    ∧ (∃ t, (create_api_token (toggle_api_token c7Store 1 1) 1 "eleventh" none).1
        = CreateResult.ok t) :=
  token_cap_blocks_eleventh_create c7Store 1 1 "eleventh" c7Removed (by decide) (by decide)
    (by decide) (by decide) (by decide) (by decide) (by decide) (by decide)

/-- C8: for a paid order containing a line item whose SKU maps to an
existing package, delivering the order-paid event from a state with no
tokens on that line creates exactly `quantity` package-bound tokens linked
to the line, and delivering the same event a second time leaves that token
set exactly as after the first delivery — the handler is idempotent per
order line. -/
theorem order_paid_token_creation_idempotent (st : Store) (o : Order)
    (pre post : List OrderItem) (item : OrderItem)
    (pkg : APITokenPackage) (pid : Nat) (sku : String)
    (hpaid : o.payment_status = "paid")
    (hsplit : o.items = pre ++ item :: post)
    (hpre : ∀ x ∈ pre, x.id ≠ item.id) (hpost : ∀ x ∈ post, x.id ≠ item.id)
    (hsku : item.product_sku = some sku) (hAPI : strStartsWith sku "API-" = true)
    (hpid : skuPackageId sku = some pid)
    (hfind : st.packages.find? (fun p => p.id = pid) = some pkg)
    (hempty : tokensFor st item.id = []) :
    (tokensFor (create_api_tokens_on_payment st o false) item.id).length = item.quantity
    ∧ tokensFor
        (create_api_tokens_on_payment (create_api_tokens_on_payment st o false) o false)
        item.id
      = tokensFor (create_api_tokens_on_payment st o false) item.id := by
  have hrun : ∀ s : Store, create_api_tokens_on_payment s o false
      = o.items.foldl (processItem o.user_id) s := by
    intro s
    simp [create_api_tokens_on_payment, hpaid]
  have hfold : ∀ s : Store, o.items.foldl (processItem o.user_id) s
      = post.foldl (processItem o.user_id)
          (processItem o.user_id (pre.foldl (processItem o.user_id) s) item) := by
    intro s
    rw [hsplit, List.foldl_append, List.foldl_cons]
  set f := processItem o.user_id with hf
  set stPre := pre.foldl f st with hstPre
  have hPreTok : tokensFor stPre item.id = [] := by
    rw [hstPre, tokensFor_foldl_ne o.user_id item.id pre st hpre]
    exact hempty
  have hPrePkgs : stPre.packages.find? (fun p => p.id = pid) = some pkg := by
    rw [hstPre, foldl_processItem_packages]
    exact hfind
  have hMid : processItem o.user_id stPre item
      = createTokens stPre o.user_id pkg item.id item.quantity :=
    processItem_fresh_step o.user_id stPre item sku pid pkg hsku hAPI hpid hPrePkgs hPreTok
  have hMidLen : (tokensFor (processItem o.user_id stPre item) item.id).length
      = item.quantity := by
    rw [hMid, tokensFor_createTokens, hPreTok]
    simp
  set st1 := create_api_tokens_on_payment st o false with hst1
  have hst1eq : st1 = post.foldl f (processItem o.user_id stPre item) := by
    rw [hst1, hrun, hfold]
  have h1 : (tokensFor st1 item.id).length = item.quantity := by
    rw [hst1eq, tokensFor_foldl_ne o.user_id item.id post _ hpost]
    exact hMidLen
  refine ⟨h1, ?_⟩
  set stPre2 := pre.foldl f st1 with hstPre2
  have hPre2Tok : tokensFor stPre2 item.id = tokensFor st1 item.id := by
    rw [hstPre2]
    exact tokensFor_foldl_ne o.user_id item.id pre st1 hpre
  have hMid2 : tokensFor (processItem o.user_id stPre2 item) item.id
      = tokensFor st1 item.id := by
    by_cases hc : tokensFor stPre2 item.id = []
    · have hq0 : item.quantity = 0 := by
        rw [← h1, ← hPre2Tok, hc]
        rfl
      have hPre2Pkgs : stPre2.packages.find? (fun p => p.id = pid) = some pkg := by
        rw [hstPre2, foldl_processItem_packages]
        rw [hst1, hrun, foldl_processItem_packages]
        exact hfind
      rw [processItem_fresh_step o.user_id stPre2 item sku pid pkg hsku hAPI hpid hPre2Pkgs hc,
        hq0]
      rw [show createTokens stPre2 o.user_id pkg item.id 0 = stPre2 from rfl]
      exact hPre2Tok
    · rw [processItem_frozen o.user_id stPre2 item hc]
      exact hPre2Tok
  rw [hrun st1, hfold st1, tokensFor_foldl_ne o.user_id item.id post _ hpost]
  exact hMid2

/-- C8 witness: the idempotence theorem applied to a concrete paid order
of two units of package 3. -/
theorem order_paid_token_creation_idempotent_witness :
    (tokensFor (create_api_tokens_on_payment c8Store c8Order false) 21).length = 2
    ∧ tokensFor
        (create_api_tokens_on_payment
          (create_api_tokens_on_payment c8Store c8Order false) c8Order false) 21
      = tokensFor (create_api_tokens_on_payment c8Store c8Order false) 21 :=
  order_paid_token_creation_idempotent c8Store c8Order [] [] c8Item c8Pkg 3 "API-3"
    rfl rfl (fun x hx => absurd hx (List.not_mem_nil x))
    (fun x hx => absurd hx (List.not_mem_nil x)) rfl (by decide) (by decide) (by decide) rfl

/-- C9: the order-placement gate denies a request authenticated with a
legacy token whose `can_place_orders` flag is off, while an authenticated
session request (no API-token principal on the request) is permitted. -/
theorem flag_token_denied_session_allowed (t : APIToken)
    (h : t.can_place_orders = false) :
    canPlaceOrders_has_permission true (RequestAuth.legacy t) = false
    ∧ canPlaceOrders_has_permission true RequestAuth.session = true := by
  constructor
  · simp [canPlaceOrders_has_permission, h]
  · simp [canPlaceOrders_has_permission]

/-- C9 witness: the gate theorem at a concrete flagless token. -/
theorem flag_token_denied_session_allowed_witness :
    canPlaceOrders_has_permission true (RequestAuth.legacy c9Tok) = false
    ∧ canPlaceOrders_has_permission true RequestAuth.session = true :=
  flag_token_denied_session_allowed c9Tok rfl

/-- C10: creating a legacy token whose name is already used by the same
owner fails with the duplicate-name error and persists nothing, while the
same name owned only by other users is accepted (subject to the usual
non-empty-name and cap checks). -/
theorem token_name_unique_per_owner (st : Store) (uid uid2 : Nat) (name : String)
    (hname : name ≠ "") :
    ((∃ t ∈ st.apiTokens, t.user_id = uid ∧ t.name = name) →
      create_api_token st uid name none = (CreateResult.errDuplicateName, st))
    ∧ ((∀ t ∈ st.apiTokens, t.name = name → t.user_id ≠ uid2) →
       (st.apiTokens.filter (fun t => t.user_id = uid2 && t.is_active)).length < 10 →
       ∃ t, (create_api_token st uid2 name none).1 = CreateResult.ok t) := by
  constructor
  · rintro ⟨t, ht, hu, hn⟩
    have hany : st.apiTokens.any (fun t => t.user_id = uid && t.name = name) = true := by
      rw [List.any_eq_true]
      exact ⟨t, ht, by simp [hu, hn]⟩
    simp [create_api_token, hname, hany]
  · intro hfresh hcap
    have hany : st.apiTokens.any (fun t => t.user_id = uid2 && t.name = name) = false := by
      rw [List.any_eq_false]
      intro t ht
      simp only [Bool.and_eq_true, decide_eq_true_eq, not_and]
      intro hu hn
      exact absurd hu (hfresh t ht hn)
    have hcap2 : ¬ 10 ≤
        (st.apiTokens.filter (fun t => t.user_id = uid2 && t.is_active)).length := by
      omega
    simp [create_api_token, hname, hany, hcap2]

/-- C10 witness: the uniqueness theorem applied to the store holding the
token named primary for user 1 — a second primary for user 1 is rejected
with the store unchanged, while a primary for user 2 is accepted. -/
theorem token_name_unique_per_owner_witness :
    create_api_token c1St1 1 "primary" none = (CreateResult.errDuplicateName, c1St1)
    ∧ ∃ t, (create_api_token c1St1 2 "primary" none).1 = CreateResult.ok t :=
  ⟨(token_name_unique_per_owner c1St1 1 2 "primary" (by decide)).1
      ⟨c1Token, by decide, by decide, rfl⟩,
   (token_name_unique_per_owner c1St1 1 2 "primary" (by decide)).2 (by decide) (by decide)⟩
